import Mathlib

/-!
Verification of the Survey Nest form-builder (src/app.py) against its
specification.  The Python source is shallowly embedded: the in-memory data
model (questions, projects, records), the XLSForm schema codec
(`export_xlsform_to_bytes` / `import_xlsform`), the add-question handler, the
submit-record handler, the question-delete handler and the two storage helpers
(`add_user`, `load_projects`) are translated into executable Lean definitions.
Spreadsheet workbooks are modelled at the level pandas sees them: a workbook is
a list of named sheets, a sheet has a column list and rows of cells, and a cell
is blank (NaN) or carries a string / boolean / integer value.  Writing a string
cell and reading it back applies pandas default NA filtering: the empty string
(an empty cell) and every default NA string such as "NA", "N/A", "NaN", "None",
"null" read back as NaN; this write/read normalisation is folded into
`strCell`.
-/

namespace SurveyNest

/-! ### Python-style string primitives -/

/-- Python `str.strip()`: remove leading and trailing whitespace. -/
def pyTrim (s : String) : String :=
  (((s.toList.dropWhile Char.isWhitespace).reverse.dropWhile Char.isWhitespace).reverse).asString

/-- Python `str.lower()` (ASCII model). -/
def pyLower (s : String) : String :=
  (s.toList.map Char.toLower).asString

/-- Python `str(i)` for an int. -/
def pyIntStr (n : Int) : String :=
  if n < 0 then "-" ++ Nat.repr n.natAbs else Nat.repr n.natAbs

/-- Helper for `pySplitlines`: accumulate characters up to each newline. -/
def pySplitlinesAux : List Char → List Char → List (List Char)
  | [], acc => if acc.isEmpty then [] else [acc.reverse]
  | c :: rest, acc =>
    if c = '\n' then acc.reverse :: pySplitlinesAux rest []
    else pySplitlinesAux rest (c :: acc)

/-- Python `str.splitlines()` (newline-only model): no trailing empty piece. -/
def pySplitlines (s : String) : List String :=
  (pySplitlinesAux s.toList []).map List.asString

/-- Boolean prefix test on character lists (model of Python `str.startswith`). -/
def hasPrefixChars : List Char → List Char → Bool
  | [], _ => true
  | _ :: _, [] => false
  | p :: ps, c :: cs => p == c && hasPrefixChars ps cs

/-- Python `s.startswith(p)`. -/
def startsWithStr (s p : String) : Bool := hasPrefixChars p.toList s.toList

/-- The characters after the first `' '` of a list, if any
(model of Python `s.split(' ', 1)[1]` guarded by `' ' in s`). -/
def afterFirstSpace : List Char → Option (List Char)
  | [] => none
  | c :: cs => if c = ' ' then some cs else afterFirstSpace cs

/-! ### Spreadsheet cells as pandas sees them -/

/-- A spreadsheet cell after `pd.read_excel`: blank (NaN) or a string, boolean
or integer value. -/
inductive Cell where
  | blank
  | str (s : String)
  | bool (b : Bool)
  | int (n : Int)
deriving DecidableEq, Repr

/-- Python `str(cell)`; `str(float("nan")) = "nan"`. -/
def pyStr : Cell → String
  | .blank => "nan"
  | .str s => s
  | .bool true => "True"
  | .bool false => "False"
  | .int n => pyIntStr n

/-- Python truthiness of a cell value (NaN is truthy). -/
def pyTruthy : Cell → Bool
  | .blank => true
  | .str s => decide (s ≠ "")
  | .bool b => b
  | .int n => decide (n ≠ 0)

/-- pandas `==` between a cell and a Python string: true only for an equal
string cell (NaN, booleans and numbers never equal a string). -/
def cellEqStr : Cell → String → Bool
  | .str t, s => t == s
  | _, _ => false

/-- A sheet as read by pandas: its column list and its rows, each row an
association from column name to cell. -/
structure Sheet where
  columns : List String
  rows : List (List (String × Cell))
deriving DecidableEq, Repr

/-- A workbook: named sheets in order. -/
structure Workbook where
  sheets : List (String × Sheet)
deriving DecidableEq, Repr

/-- The cell of `row` in column `col` (rows carry a cell for every column of
their sheet; a missing association reads as blank). -/
def cellOf (row : List (String × Cell)) (col : String) : Cell :=
  (row.lookup col).getD Cell.blank

/-! ### Data model (app.py `create_empty_project` comment: form questions are
dicts with keys id, name, label, type, choices, required) -/

structure Question where
  id : String
  name : String
  label : String
  type : String
  choices : List String
  required : Bool
deriving DecidableEq, Repr

/-- A record value: entries produced by the Collect tab are strings, numbers,
lists of strings, `None` (note questions), or date-like objects.  `date` is a
`datetime.date` as returned by `st.date_input`; `timestamp` is a
`pd.Timestamp` / `datetime.datetime` instance.  Both carry their `str()`
form. -/
inductive Value where
  | null
  | str (s : String)
  | num (q : Rat)
  | list (l : List String)
  | date (s : String)
  | timestamp (s : String)
deriving DecidableEq, Repr

structure Project where
  id : String
  title : String
  owner : String
  created_at : String
  form : List Question
  data : List (List (String × Value))
deriving DecidableEq, Repr

/-- The question types offered by the Form Designer selectbox. -/
def supportedTypes : List String :=
  ["text", "integer", "decimal", "date", "select_one", "select_multiple", "note"]

/-- The five fields the round-trip contract compares. -/
def qKey (q : Question) : String × String × String × Bool × List String :=
  (q.name, q.label, q.type, q.required, q.choices)

/-! ### Credential store (app.py `add_user`, lines 41-48).  `hashlib.sha256`
is external; the hash function is a parameter.  The table is the CSV content:
rows of (username, password_hash). -/

/-- The Python exceptions `open` + `json.load` can raise on the project
document. -/
inductive PyExn where
  | jsonDecodeError
  | fileNotFoundError
  | unicodeDecodeError
deriving DecidableEq, Repr

/-- What reading and json-loading the present file yields: valid-UTF-8 but
invalid JSON raises `JSONDecodeError`; non-UTF-8 bytes raise
`UnicodeDecodeError`; otherwise the parsed mapping. -/
inductive ReadOutcome where
  | jsonDecodeError
  | unicodeDecodeError
  | ok (m : List (String × List (String × Project)))
deriving Repr

/-- The persisted `kc_projects.json`: absent, or present with a given read
outcome. -/
inductive StoredDoc where
  | absent
  | present (r : ReadOutcome)
deriving Repr

/-- `open` + `json.load` on a present file. -/
def pyJsonLoad : ReadOutcome → Except PyExn (List (String × List (String × Project)))
  | .jsonDecodeError => .error .jsonDecodeError
  | .unicodeDecodeError => .error .unicodeDecodeError
  | .ok m => .ok m

/-- The `except (json.JSONDecodeError, FileNotFoundError)` clause of
app.py lines 60-64: exactly these two exception classes are caught. -/
def caughtByLoad : PyExn → Bool
  | .jsonDecodeError => true
  | .fileNotFoundError => true
  | .unicodeDecodeError => false

/-- app.py `load_projects`: a missing file gives the empty mapping; a present
file is json-loaded inside try/except, a caught exception gives the empty
mapping, and any other exception propagates (`Except.error`). -/
def load_projects (doc : StoredDoc) :
    Except PyExn (List (String × List (String × Project))) :=
  match doc with
  | .absent => .ok []
  | .present r =>
    match pyJsonLoad r with
    | .ok m => .ok m
    | .error e => if caughtByLoad e then .ok [] else .error e

/-- `load_projects` of the duplicate source file (src/unnamed/part_000 lines
46-50): no try/except at all, every read failure propagates. -/
def load_projects_legacy (doc : StoredDoc) :
    Except PyExn (List (String × List (String × Project))) :=
  match doc with
  | .absent => .ok []
  | .present r => pyJsonLoad r

/-! ### XLSForm export (app.py `export_xlsform_to_bytes`, lines 105-141) -/

/-- The default NA vocabulary of `pd.read_excel` (keep_default_na=True): a
string cell with exactly one of these texts, and an empty cell (pandas writes
`""` as an empty cell), read back as NaN. -/
def pandasNAStrings : List String :=
  ["", "#N/A", "#N/A N/A", "#NA", "-1.#IND", "-1.#QNAN", "-NaN", "-nan",
   "1.#IND", "1.#QNAN", "<NA>", "N/A", "NA", "NULL", "NaN", "None", "n/a",
   "nan", "null"]

/-- A written cell as it reads back through the xlsx write / `pd.read_excel`
channel: the empty string and the default NA strings become NaN. -/
def strCell (s : String) : Cell :=
  if s ∈ pandasNAStrings then Cell.blank else Cell.str s

/-- The survey-sheet `type` cell emitted for a question. -/
def typeCellStr (q : Question) : String :=
  if q.type = "select_one" ∨ q.type = "select_multiple" then q.type ++ " " ++ q.name
  else q.type

/-- One survey-sheet row per question. -/
def exportSurveyRow (q : Question) : List (String × Cell) :=
  [("type", strCell (typeCellStr q)),
   ("name", strCell q.name),
   ("label", strCell q.label),
   ("required", strCell (if q.required then "yes" else ""))]

/-- Choices-sheet rows for one choice list: `enumerate(choices, start=1)`
with option names `opt1`, `opt2`, ... -/
def exportChoiceRowsAux (qname : String) : Nat → List String → List (List (String × Cell))
  | _, [] => []
  | i, ch :: rest =>
    [("list_name", strCell qname),
     ("name", strCell ("opt" ++ Nat.repr i)),
     ("label", strCell ch)] :: exportChoiceRowsAux qname (i + 1) rest

/-- Choices rows of a question: emitted whenever `q["choices"]` is non-empty,
with `list_name` the question name. -/
def exportChoiceRows (q : Question) : List (List (String × Cell)) :=
  if q.choices.isEmpty then [] else exportChoiceRowsAux q.name 1 q.choices

/-- app.py `export_xlsform_to_bytes`: a `survey` sheet (an empty form gives a
`pd.DataFrame([])` with no columns), plus a `choices` sheet only when some
question emitted choices rows. -/
def export_xlsform (p : Project) : Workbook :=
  { sheets :=
      [("survey",
        { columns := if (p.form.map exportSurveyRow).isEmpty then []
                     else ["type", "name", "label", "required"],
          rows := p.form.map exportSurveyRow })] ++
      (if (p.form.flatMap exportChoiceRows).isEmpty then []
       else [("choices",
              { columns := ["list_name", "name", "label"],
                rows := p.form.flatMap exportChoiceRows })]) }

/-! ### XLSForm import (app.py `import_xlsform`, lines 153-234) -/

/-- `required` parsing, line 190 and 223:
`q_required = row["required"] if present and not NaN else False` followed by
`bool(q_required and str(q_required).lower() in ["yes","true","1","required"])`. -/
def parseRequired : Cell → Bool
  | .blank => false
  | c => pyTruthy c && decide (pyLower (pyStr c) ∈ (["yes", "true", "1", "required"] : List String))

/-- The `required` flag of a survey row: the column may be absent entirely. -/
def parseRequiredCell (cols : List String) (row : List (String × Cell)) : Bool :=
  if cols.contains "required" then parseRequired (cellOf row "required") else false

/-- Line 184: skip a row when any of type/name/label is NaN. -/
def rowSkipped (row : List (String × Cell)) : Bool :=
  decide (cellOf row "type" = Cell.blank) || decide (cellOf row "name" = Cell.blank) ||
    decide (cellOf row "label" = Cell.blank)

/-- Line 194: `q_type.startswith(("select_one", "select_multiple"))`. -/
def isSelectType (t : String) : Bool :=
  startsWithStr t "select_one" || startsWithStr t "select_multiple"

/-- Line 196: the list name is the text after the first space of the type
cell, defaulting to the question name. -/
def listNameOf (qtype qname : String) : String :=
  match afterFirstSpace qtype.toList with
  | some rest => rest.asString
  | none => qname

/-- Lines 202-206: the text of one choices row — prefer `label`, fall back to
`name`, skip the row when both are absent/NaN. -/
def choiceTextOf (cols : List String) (row : List (String × Cell)) : Option String :=
  if cols.contains "label" && decide (cellOf row "label" ≠ Cell.blank) then
    some (pyStr (cellOf row "label"))
  else if cols.contains "name" && decide (cellOf row "name" ≠ Cell.blank) then
    some (pyStr (cellOf row "name"))
  else none

/-- Lines 199-206: all choices rows whose `list_name` equals the resolved list
name, in sheet order. -/
def lookupChoices (csheet : Option Sheet) (lname : String) : List String :=
  match csheet with
  | none => []
  | some sh =>
    if sh.columns.contains "list_name" then
      (sh.rows.filter (fun r => cellEqStr (cellOf r "list_name") lname)).filterMap
        (choiceTextOf sh.columns)
    else []

/-- Lines 209-214: normalise `select_one ...` / `select_multiple ...` to the
bare keyword; anything else is kept verbatim. -/
def normalizeType (t : String) : String :=
  if startsWithStr t "select_one" then "select_one"
  else if startsWithStr t "select_multiple" then "select_multiple"
  else t

/-- Lines 187-224: the question built from one non-skipped survey row. -/
def questionOfRow (scols : List String) (csheet : Option Sheet) (qid : String)
    (row : List (String × Cell)) : Question :=
  { id := qid,
    name := pyStr (cellOf row "name"),
    label := pyStr (cellOf row "label"),
    type := normalizeType (pyStr (cellOf row "type")),
    choices :=
      if isSelectType (pyStr (cellOf row "type")) then
        lookupChoices csheet (listNameOf (pyStr (cellOf row "type")) (pyStr (cellOf row "name")))
      else [],
    required := parseRequiredCell scols row }

/-- Lines 182-226: the row loop.  `ids k` is the fresh id handed to the k-th
built question (`new_id("q")` is time-based and therefore a parameter). -/
def buildQuestions (ids : Nat → String) (scols : List String) (csheet : Option Sheet) :
    Nat → List (List (String × Cell)) → List Question
  | _, [] => []
  | k, r :: rs =>
    if rowSkipped r then buildQuestions ids scols csheet k rs
    else questionOfRow scols csheet (ids k) r :: buildQuestions ids scols csheet (k + 1) rs

/-- The result of an import: the returned flag, the `st.error` message if any,
and the project after the call. -/
structure ImportOutcome where
  success : Bool
  error : Option String
  project : Project
deriving DecidableEq, Repr

/-- The questions an import would append once the sheet checks pass. -/
def importedQuestions (wb : Workbook) (ids : Nat → String) : List Question :=
  match wb.sheets.lookup "survey" with
  | none => []
  | some sv => buildQuestions ids sv.columns (wb.sheets.lookup "choices") 0 sv.rows

/-- app.py `import_xlsform`: fail (message, project untouched) when the
`survey` sheet is missing or lacks one of type/name/label; otherwise append
the built questions to the form.  Error strings follow the Python messages
(Python quotes the sheet and column names). -/
def import_xlsform (wb : Workbook) (ids : Nat → String) (p : Project) : ImportOutcome :=
  match wb.sheets.lookup "survey" with
  | none =>
    { success := false, error := some "XLSForm must contain a survey sheet", project := p }
  | some sv =>
    match ["type", "name", "label"].find? (fun c => ! sv.columns.contains c) with
    | some col =>
      { success := false,
        error := some ("XLSForm must contain " ++ col ++ " column in survey sheet"),
        project := p }
    | none =>
      { success := true, error := none,
        project :=
          { p with form :=
              p.form ++ buildQuestions ids sv.columns (wb.sheets.lookup "choices") 0 sv.rows } }

/-! ### Form Designer: add question (app.py lines 429-467) -/

/-- `"".join(ch if ch.isalnum() else "_" for ch in q_label.strip()).lower()`. -/
def sanitizeLower (label : String) : String :=
  (((pyTrim label).toList.map (fun c => if c.isAlphanum then c else '_')).map Char.toLower).asString

/-- `f"{base}_{suffix}"`. -/
def suffixedName (base : String) (k : Nat) : String :=
  base ++ "_" ++ Nat.repr k

/-- The `while candidate in existing_names` loop, fuelled: try `base_1`,
`base_2`, ... until a name free in `existing` is found. -/
def freshLoop (base : String) (existing : List String) : Nat → Nat → String
  | suffix, 0 => suffixedName base suffix
  | suffix, fuel + 1 =>
    if suffixedName base suffix ∈ existing then freshLoop base existing (suffix + 1) fuel
    else suffixedName base suffix

/-- `candidate = base or f"q{len(project['form'])+1}"`. -/
def autoNameCandidate (form : List Question) (label : String) : String :=
  if sanitizeLower label = "" then "q" ++ Nat.repr (form.length + 1) else sanitizeLower label

/-- Lines 444-453: the auto-generated variable name when the caller supplies
none.  The fuel `form.length + 1` suffices: some candidate among
`base_1 .. base_(n+1)` is free. -/
def autoName (form : List Question) (label : String) : String :=
  if autoNameCandidate form label ∈ form.map (fun q => q.name) then
    freshLoop (sanitizeLower label) (form.map (fun q => q.name)) 1 (form.length + 1)
  else autoNameCandidate form label

/-- `[c.strip() for c in q_choices.splitlines() if c.strip()] if q_choices else []`. -/
def parseChoicesText (text : String) : List String :=
  if text = "" then []
  else (pySplitlines text).filterMap (fun c => if pyTrim c = "" then none else some (pyTrim c))

/-- Lines 439-464, the Add Question submit handler: `none` when the label is
blank (an error is shown, nothing mutated); otherwise the new question is
appended, named by the caller when a non-blank name was supplied and by
`autoName` otherwise. -/
def addQuestion (p : Project) (qid q_label q_type : String) (req : Bool)
    (q_choices q_name : String) : Option Project :=
  if pyTrim q_label = "" then none
  else some
    { p with form := p.form ++
        [{ id := qid,
           name := if pyTrim q_name = "" then autoName p.form q_label else pyTrim q_name,
           label := pyTrim q_label,
           type := q_type,
           choices := parseChoicesText q_choices,
           required := req }] }

/-! ### Delete question (app.py lines 409-416): `project["form"].pop(del_idx-1)` -/

def deleteQuestion (p : Project) (k : Nat) : Project :=
  { p with form := p.form.eraseIdx (k - 1) }

/-! ### Submit record (app.py lines 500-518) -/

/-- `entry.get(q["name"]) in (None, "", [], 0)`: Python `in` tests `==`
against each element; dates/timestamps equal none of them. -/
def isMissingOpt : Option Value → Bool
  | none => true
  | some .null => true
  | some (.str s) => decide (s = "")
  | some (.num q) => decide (q = 0)
  | some (.list l) => l.isEmpty
  | some (.date _) => false
  | some (.timestamp _) => false

/-- Lines 510-512: `str(v)` applied to values that are `pd.Timestamp` or
`datetime.datetime` instances.  The `datetime.date` objects `st.date_input`
returns are instances of neither class, so the check at line 511 leaves them
unconverted — despite the `normalize date values` comment at line 509. -/
def normalizeValue : Value → Value
  | .timestamp s => .str s
  | v => v

/-- The result of a submit: the flag, the reported missing labels, and the
project after the call. -/
structure SubmitOutcome where
  success : Bool
  missing : List String
  project : Project
deriving DecidableEq, Repr

/-- Lines 500-518, the Submit record handler: collect the labels of required
questions whose entry value is absent/""/[]/0; on any, fail with those labels
and no mutation; otherwise normalise dates, prepend `_submission_time := now`
and append the record to `data`. -/
def submitRecord (p : Project) (entry : List (String × Value)) (now : String) : SubmitOutcome :=
  let missing := (p.form.filter (fun q => q.required && isMissingOpt (entry.lookup q.name))).map
    (fun q => q.label)
  if missing.isEmpty then
    { success := true, missing := [],
      project :=
        { p with data := p.data ++
            [("_submission_time", Value.str now) ::
              entry.map (fun kv => (kv.1, normalizeValue kv.2))] } }
  else
    { success := false, missing := missing, project := p }

/-! ### Statement-side predicates (hypotheses of the claims) -/

/-- The validity hypotheses exactly as claim C1 states them: non-blank name
and label, a supported type, and choices non-empty exactly for select
questions. -/
def validQuestionClaim (q : Question) : Prop :=
  q.name ≠ "" ∧ q.label ≠ "" ∧ q.type ∈ supportedTypes ∧
    ((q.type = "select_one" ∨ q.type = "select_multiple") ↔ q.choices ≠ [])

instance (q : Question) : Decidable (validQuestionClaim q) := by
  unfold validQuestionClaim; infer_instance

/-- The amended validity: additionally the name, the label and every choice
text survive pandas NA filtering (none is a default NA string). -/
def validQuestion (q : Question) : Prop :=
  validQuestionClaim q ∧ q.name ∉ pandasNAStrings ∧ q.label ∉ pandasNAStrings ∧
    ∀ ch ∈ q.choices, ch ∉ pandasNAStrings

instance (q : Question) : Decidable (validQuestion q) := by
  unfold validQuestion; infer_instance

/-! ### Concrete instances used by witnesses and counterexamples -/

def emptyProject : Project :=
  { id := "proj_1", title := "Census", owner := "alice", created_at := "2024-01-01T00:00:00",
    form := [], data := [] }

def idSeq : Nat → String := fun k => "q_" ++ Nat.repr k

def exTextQ : Question :=
  { id := "q_a", name := "name", label := "Name", type := "text", choices := [], required := true }

def exSelectQ : Question :=
  { id := "q_b", name := "gender", label := "Gender", type := "select_one",
    choices := ["M", "F"], required := false }

def exProject : Project := { emptyProject with form := [exTextQ, exSelectQ] }

def exPetsQ : Question :=
  { id := "q_e", name := "pets", label := "Pets", type := "select_multiple",
    choices := ["cat", "dog"], required := true }

def exPetsProject : Project := { emptyProject with form := [exPetsQ] }

def exThreeProject : Project :=
  { emptyProject with form := [exTextQ, exSelectQ, exPetsQ] }

def exTextChoicesQ : Question :=
  { id := "q_f", name := "t", label := "T", type := "text", choices := ["x"], required := false }

def exTextChoicesProject : Project := { emptyProject with form := [exTextChoicesQ] }

def ceBlankChoiceQ : Question :=
  { id := "q_c", name := "a", label := "L", type := "select_one", choices := [""],
    required := false }

def ceBlankChoiceProject : Project := { emptyProject with form := [ceBlankChoiceQ] }

def ceDupQ : Question :=
  { id := "q_d", name := "dup", label := "First", type := "text", choices := [], required := false }

def ceDupProject : Project := { emptyProject with form := [ceDupQ] }

def exDateQ : Question :=
  { id := "q_g", name := "d", label := "Date", type := "date", choices := [], required := false }

def exDateProject : Project := { emptyProject with form := [exDateQ] }

def ceNAQ : Question :=
  { id := "q_h", name := "t2", label := "NA", type := "text", choices := ["x"],
    required := false }

def ceNAProject : Project := { emptyProject with form := [ceNAQ] }

def noSurveyWorkbook : Workbook := { sheets := [] }

def exSurveyWorkbook : Workbook :=
  { sheets := [("survey",
      { columns := ["type", "name", "label"],
        rows := [[("type", Cell.str "text"), ("name", Cell.str "age"),
                  ("label", Cell.str "Age")]] })] }

/-! ### Reference decimal-numeral functions (for freshness of `autoName`) -/

/-- Decimal digits of a natural number, most significant first. -/
def natChars (n : Nat) : List Char :=
  if _h : n < 10 then [Nat.digitChar n]
  else natChars (n / 10) ++ [Nat.digitChar (n % 10)]
termination_by n
decreasing_by exact Nat.div_lt_self (by omega) (by omega)

/-- The digit value of a digit character. -/
def charVal (c : Char) : Nat := c.toNat - '0'.toNat

/-- Reading a decimal digit string back as a number. -/
def charsToNat (l : List Char) : Nat := l.foldl (fun a c => a * 10 + charVal c) 0


/-! ## Helper lemmas -/

theorem string_data_inj {s t : String} (h : s.data = t.data) : s = t := by
  cases s; cases t; simp_all

theorem natChars_of_lt {n : Nat} (h : n < 10) : natChars n = [Nat.digitChar n] := by
  rw [natChars]; simp [h]

theorem natChars_of_ge {n : Nat} (h : ¬ n < 10) :
    natChars n = natChars (n / 10) ++ [Nat.digitChar (n % 10)] := by
  rw [natChars]; simp [h]

theorem charVal_digitChar : ∀ d < 10, charVal (Nat.digitChar d) = d := by decide

theorem charsToNat_natChars (n : Nat) : charsToNat (natChars n) = n := by
  induction n using Nat.strong_induction_on with
  | _ n ih =>
    by_cases h : n < 10
    · rw [natChars_of_lt h]
      simp [charsToNat, charVal_digitChar n h]
    · rw [natChars_of_ge h]
      have hd : n / 10 < n := Nat.div_lt_self (by omega) (by omega)
      have ihh := ih (n / 10) hd
      have hm : n % 10 < 10 := Nat.mod_lt _ (by omega)
      have hdm := Nat.div_add_mod n 10
      simp only [charsToNat, List.foldl_append, List.foldl_cons, List.foldl_nil] at ihh ⊢
      rw [ihh, charVal_digitChar _ hm]
      omega

theorem natChars_injective : Function.Injective natChars := by
  intro a b h
  have := congrArg charsToNat h
  simpa [charsToNat_natChars] using this

theorem toDigitsCore_succ_step (fuel n : Nat) (ds : List Char) :
    Nat.toDigitsCore 10 (fuel + 1) n ds =
      if n / 10 = 0 then Nat.digitChar (n % 10) :: ds
      else Nat.toDigitsCore 10 fuel (n / 10) (Nat.digitChar (n % 10) :: ds) := by
  conv_lhs => rw [Nat.toDigitsCore]

theorem toDigitsCore_eq_natChars :
    ∀ (fuel n : Nat) (ds : List Char), n < 10 ^ (fuel + 1) →
      Nat.toDigitsCore 10 (fuel + 1) n ds = natChars n ++ ds := by
  intro fuel
  induction fuel with
  | zero =>
    intro n ds h
    have h10 : n < 10 := by simpa using h
    have hdiv : n / 10 = 0 := Nat.div_eq_of_lt h10
    simp [Nat.toDigitsCore, hdiv, natChars_of_lt h10, Nat.mod_eq_of_lt h10]
  | succ f ihf =>
    intro n ds h
    by_cases h10 : n < 10
    · have hdiv : n / 10 = 0 := Nat.div_eq_of_lt h10
      simp [Nat.toDigitsCore, hdiv, natChars_of_lt h10, Nat.mod_eq_of_lt h10]
    · have hdiv : n / 10 ≠ 0 := by
        have h1 : 10 ≤ n := le_of_not_lt h10
        have := (Nat.le_div_iff_mul_le (k := 10) (by omega)).mpr (by omega : 1 * 10 ≤ n)
        omega
      have hlt : n / 10 < 10 ^ (f + 1) := by
        apply Nat.div_lt_of_lt_mul
        rw [← pow_succ']
        exact h
      rw [toDigitsCore_succ_step, if_neg hdiv, ihf (n / 10) _ hlt, natChars_of_ge h10]
      simp

theorem repr_eq_natChars (n : Nat) : Nat.repr n = (natChars n).asString := by
  have h : n < 10 ^ (n + 1) :=
    lt_of_lt_of_le (Nat.lt_pow_self (by omega) n) (Nat.pow_le_pow_right (by omega) (by omega))
  show (Nat.toDigits 10 n).asString = _
  rw [show Nat.toDigits 10 n = Nat.toDigitsCore 10 (n + 1) n [] from rfl]
  rw [toDigitsCore_eq_natChars n n [] h]
  simp

theorem repr_injective : Function.Injective Nat.repr := by
  intro a b h
  rw [repr_eq_natChars, repr_eq_natChars] at h
  apply natChars_injective
  have := congrArg String.data h
  simpa [List.asString] using this

theorem suffixedName_injective (base : String) : Function.Injective (suffixedName base) := by
  intro i j h
  unfold suffixedName at h
  have hd := congrArg String.data h
  simp only [String.data_append] at hd
  have h1 := List.append_cancel_left hd
  exact repr_injective (string_data_inj h1)

theorem exists_fresh_suffix (base : String) (existing : List String) :
    ∃ i < existing.length + 1, suffixedName base (1 + i) ∉ existing := by
  by_contra hall
  push_neg at hall
  have hsub : (Finset.range (existing.length + 1)).image (fun i => suffixedName base (1 + i)) ⊆
      existing.toFinset := by
    intro x hx
    simp only [Finset.mem_image, Finset.mem_range] at hx
    obtain ⟨i, hi, rfl⟩ := hx
    exact List.mem_toFinset.mpr (hall i hi)
  have hinj : Function.Injective (fun i => suffixedName base (1 + i)) := by
    intro a b hab
    have := suffixedName_injective base hab
    omega
  have hcard := Finset.card_le_card hsub
  rw [Finset.card_image_of_injective _ hinj, Finset.card_range] at hcard
  have := existing.toFinset_card_le
  omega

theorem freshLoop_not_mem (base : String) (existing : List String) :
    ∀ fuel suffix, (∃ i < fuel, suffixedName base (suffix + i) ∉ existing) →
      freshLoop base existing suffix fuel ∉ existing := by
  intro fuel
  induction fuel with
  | zero =>
    intro suffix h
    obtain ⟨i, hi, _⟩ := h
    omega
  | succ f ih =>
    intro suffix h
    obtain ⟨i, hi, hfree⟩ := h
    simp only [freshLoop]
    by_cases hc : suffixedName base suffix ∈ existing
    · rw [if_pos hc]
      apply ih
      rcases i with _ | i
      · exact absurd hc (by simpa using hfree)
      · exact ⟨i, by omega, by rw [show suffix + 1 + i = suffix + (i + 1) by omega]; exact hfree⟩
    · rw [if_neg hc]
      exact hc

theorem autoName_not_mem (form : List Question) (label : String) :
    autoName form label ∉ form.map (fun q => q.name) := by
  unfold autoName
  by_cases h0 : autoNameCandidate form label ∈ form.map (fun q => q.name)
  · rw [if_pos h0]
    apply freshLoop_not_mem
    obtain ⟨i, hi, hfree⟩ := exists_fresh_suffix (sanitizeLower label) (form.map (fun q => q.name))
    refine ⟨i, ?_, hfree⟩
    simpa using hi
  · rw [if_neg h0]
    exact h0


/-! ## Round-trip lemmas for the XLSForm codec -/

theorem toList_append (s t : String) : (s ++ t).toList = s.toList ++ t.toList :=
  String.data_append s t

theorem toList_asString (s : String) : s.toList.asString = s := by
  cases s; rfl

theorem strCell_of_ne {s : String} (h : s ∉ pandasNAStrings) : strCell s = Cell.str s := by
  simp [strCell, h]

theorem append_ne_empty_left {s t : String} (h : s ≠ "") : s ++ t ≠ "" := by
  intro heq
  apply h
  have := congrArg String.data heq
  rw [String.data_append] at this
  rcases List.append_eq_nil.mp this with ⟨h1, -⟩
  exact string_data_inj h1

theorem hasPrefixChars_append_self : ∀ (p t : List Char), hasPrefixChars p (p ++ t) = true := by
  intro p
  induction p with
  | nil => intro t; rfl
  | cons c cs ih => intro t; simp [hasPrefixChars, ih]

theorem hasPrefixChars_append_of_le :
    ∀ (p a : List Char), p.length ≤ a.length → ∀ b, hasPrefixChars p (a ++ b) = hasPrefixChars p a := by
  intro p
  induction p with
  | nil => intro a _ b; rfl
  | cons c cs ih =>
    intro a hlen b
    cases a with
    | nil => simp at hlen
    | cons x xs =>
      simp only [List.cons_append, hasPrefixChars]
      rw [show xs.append b = xs ++ b from rfl, ih xs (by simpa using hlen) b]

theorem startsWithStr_select_one (n : String) :
    startsWithStr ("select_one" ++ " " ++ n) "select_one" = true := by
  unfold startsWithStr
  rw [toList_append, toList_append, List.append_assoc]
  exact hasPrefixChars_append_self _ _

theorem startsWithStr_select_multiple (n : String) :
    startsWithStr ("select_multiple" ++ " " ++ n) "select_multiple" = true := by
  unfold startsWithStr
  rw [toList_append, toList_append, List.append_assoc]
  exact hasPrefixChars_append_self _ _

theorem startsWithStr_sm_not_so (n : String) :
    startsWithStr ("select_multiple" ++ " " ++ n) "select_one" = false := by
  unfold startsWithStr
  rw [toList_append, toList_append, List.append_assoc]
  rw [hasPrefixChars_append_of_le _ _ (by decide)]
  decide

theorem afterFirstSpace_append :
    ∀ (a : List Char), ' ' ∉ a → ∀ b, afterFirstSpace (a ++ ' ' :: b) = some b := by
  intro a
  induction a with
  | nil => intro _ b; simp [afterFirstSpace]
  | cons c cs ih =>
    intro h b
    simp only [List.mem_cons, not_or] at h
    simp only [List.cons_append, afterFirstSpace]
    rw [if_neg (fun hc => h.1 hc.symm)]
    exact ih h.2 b

theorem listNameOf_select (t n : String) (ht : ' ' ∉ t.toList) :
    listNameOf (t ++ " " ++ n) n = n := by
  unfold listNameOf
  rw [toList_append, toList_append, List.append_assoc]
  have : (" ".toList ++ n.toList) = ' ' :: n.toList := rfl
  rw [this, afterFirstSpace_append t.toList ht n.toList]
  exact toList_asString n


theorem cellOf_exportChoiceRowsAux_listName (nm : String) :
    ∀ (chs : List String) (i : Nat) (r : List (String × Cell)),
      r ∈ exportChoiceRowsAux nm i chs → cellOf r "list_name" = strCell nm := by
  intro chs
  induction chs with
  | nil => intro i r hr; simp [exportChoiceRowsAux] at hr
  | cons ch rest ih =>
    intro i r hr
    simp only [exportChoiceRowsAux, List.mem_cons] at hr
    rcases hr with rfl | hr
    · rfl
    · exact ih (i + 1) r hr

theorem filter_choiceRowsAux_self {nm : String} (hn : nm ∉ pandasNAStrings) :
    ∀ (chs : List String) (i : Nat),
      (exportChoiceRowsAux nm i chs).filter (fun r => cellEqStr (cellOf r "list_name") nm)
        = exportChoiceRowsAux nm i chs := by
  intro chs
  induction chs with
  | nil => intro i; rfl
  | cons ch rest ih =>
    intro i
    simp only [exportChoiceRowsAux, List.filter_cons]
    have hcond : cellEqStr (cellOf [("list_name", strCell nm),
        ("name", strCell ("opt" ++ Nat.repr i)), ("label", strCell ch)] "list_name") nm = true := by
      rw [show cellOf [("list_name", strCell nm), ("name", strCell ("opt" ++ Nat.repr i)),
            ("label", strCell ch)] "list_name" = strCell nm from rfl, strCell_of_ne hn]
      simp [cellEqStr]
    rw [if_pos hcond, ih (i + 1)]

theorem filter_choiceRows_self {q : Question} (hn : q.name ∉ pandasNAStrings) :
    (exportChoiceRows q).filter (fun r => cellEqStr (cellOf r "list_name") q.name)
      = exportChoiceRows q := by
  unfold exportChoiceRows
  by_cases h : q.choices.isEmpty
  · rw [if_pos h]; rfl
  · rw [if_neg h]; exact filter_choiceRowsAux_self hn q.choices 1

theorem cellEqStr_strCell_ne {a b : String} (h : a ≠ b) : cellEqStr (strCell a) b = false := by
  unfold strCell
  by_cases ha : a ∈ pandasNAStrings
  · rw [if_pos ha]; rfl
  · rw [if_neg ha]
    simp [cellEqStr, h]

theorem filter_choiceRows_ne {q' : Question} {nm : String} (h : q'.name ≠ nm) :
    (exportChoiceRows q').filter (fun r => cellEqStr (cellOf r "list_name") nm) = [] := by
  rw [List.filter_eq_nil_iff]
  intro r hr
  have hmem : r ∈ exportChoiceRowsAux q'.name 1 q'.choices := by
    unfold exportChoiceRows at hr
    by_cases hc : q'.choices.isEmpty
    · rw [if_pos hc] at hr; simp at hr
    · rwa [if_neg hc] at hr
  rw [cellOf_exportChoiceRowsAux_listName q'.name q'.choices 1 r hmem]
  simp [cellEqStr_strCell_ne h]

theorem filter_flatMap_choiceRows_nil {nm : String} :
    ∀ (F : List Question), (∀ q' ∈ F, q'.name ≠ nm) →
      (F.flatMap exportChoiceRows).filter (fun r => cellEqStr (cellOf r "list_name") nm) = [] := by
  intro F
  induction F with
  | nil => intro _; rfl
  | cons x rest ih =>
    intro h
    rw [List.flatMap_cons, List.filter_append, ih (fun q' hq' => h q' (List.mem_cons_of_mem x hq')),
      filter_choiceRows_ne (h x (List.mem_cons_self x rest))]
    rfl

theorem filter_flatMap_choiceRows {F : List Question} {q : Question} (hq : q ∈ F)
    (hnd : (F.map (fun x => x.name)).Nodup) (hn : q.name ∉ pandasNAStrings) :
    (F.flatMap exportChoiceRows).filter (fun r => cellEqStr (cellOf r "list_name") q.name)
      = exportChoiceRows q := by
  induction F with
  | nil => simp at hq
  | cons x rest ih =>
    simp only [List.map_cons, List.nodup_cons] at hnd
    rw [List.flatMap_cons, List.filter_append]
    rcases List.mem_cons.mp hq with rfl | hq'
    · have hrest : ∀ q' ∈ rest, q'.name ≠ q.name := by
        intro q' hq' heq
        have hm : q'.name ∈ rest.map (fun x => x.name) := List.mem_map_of_mem _ hq'
        rw [heq] at hm
        exact hnd.1 hm
      rw [filter_choiceRows_self hn, filter_flatMap_choiceRows_nil rest hrest, List.append_nil]
    · have hxq : x.name ≠ q.name := by
        intro heq
        have hm : q.name ∈ rest.map (fun x => x.name) := List.mem_map_of_mem _ hq'
        rw [← heq] at hm
        exact hnd.1 hm
      rw [filter_choiceRows_ne hxq, ih hq' hnd.2]
      rfl

theorem filterMap_choiceText {chs : List String} (hch : ∀ ch ∈ chs, ch ∉ pandasNAStrings)
    (nm : String) :
    ∀ i, (exportChoiceRowsAux nm i chs).filterMap (choiceTextOf ["list_name", "name", "label"])
      = chs := by
  induction chs with
  | nil => intro i; rfl
  | cons ch rest ih =>
    intro i
    have hc : ch ∉ pandasNAStrings := hch ch (List.mem_cons_self ch rest)
    simp only [exportChoiceRowsAux, List.filterMap_cons]
    have hcell : cellOf [("list_name", strCell nm), ("name", strCell ("opt" ++ Nat.repr i)),
        ("label", strCell ch)] "label" = strCell ch := rfl
    rw [show choiceTextOf ["list_name", "name", "label"]
          [("list_name", strCell nm), ("name", strCell ("opt" ++ Nat.repr i)),
           ("label", strCell ch)] = some ch from by
        unfold choiceTextOf
        rw [hcell, strCell_of_ne hc]
        simp [pyStr]]
    rw [ih (fun c hcm => hch c (List.mem_cons_of_mem ch hcm)) (i + 1)]

theorem exportChoiceRows_ne_nil {q : Question} (h : q.choices ≠ []) :
    exportChoiceRows q ≠ [] := by
  unfold exportChoiceRows
  rw [if_neg (by simpa using h)]
  cases hc : q.choices with
  | nil => exact absurd hc h
  | cons ch rest => simp [exportChoiceRowsAux]

theorem lookupChoices_export {F : List Question} {q : Question} (hq : q ∈ F)
    (hnd : (F.map (fun x => x.name)).Nodup) (hn : q.name ∉ pandasNAStrings)
    (hch : ∀ ch ∈ q.choices, ch ∉ pandasNAStrings) (hne : q.choices ≠ []) :
    lookupChoices (some ⟨["list_name", "name", "label"], F.flatMap exportChoiceRows⟩) q.name
      = q.choices := by
  have hred : lookupChoices (some ⟨["list_name", "name", "label"], F.flatMap exportChoiceRows⟩)
      q.name
      = ((F.flatMap exportChoiceRows).filter
          (fun r => cellEqStr (cellOf r "list_name") q.name)).filterMap
          (choiceTextOf ["list_name", "name", "label"]) := rfl
  rw [hred, filter_flatMap_choiceRows hq hnd hn]
  unfold exportChoiceRows
  rw [if_neg (by simpa using hne)]
  exact filterMap_choiceText hch q.name 1


theorem question_type_ne_empty {q : Question} (ht : q.type ∈ supportedTypes) : q.type ≠ "" := by
  simp only [supportedTypes, List.mem_cons, List.not_mem_nil, or_false] at ht
  rcases ht with h | h | h | h | h | h | h <;> simp [h]

theorem typeCellStr_ne_empty {q : Question} (ht : q.type ∈ supportedTypes) :
    typeCellStr q ≠ "" := by
  unfold typeCellStr
  by_cases hsel : q.type = "select_one" ∨ q.type = "select_multiple"
  · rw [if_pos hsel]
    exact append_ne_empty_left (append_ne_empty_left (question_type_ne_empty ht))
  · rw [if_neg hsel]
    exact question_type_ne_empty ht

theorem typeCell_select_not_NA (t n : String)
    (ht : t = "select_one" ∨ t = "select_multiple") :
    (t ++ " " ++ n) ∉ pandasNAStrings := by
  have h1 : (t ++ " " ++ n).data.headD '?' = 's' := by
    rcases ht with rfl | rfl <;> rfl
  intro hmem
  have h2 : ∀ na ∈ pandasNAStrings, na.data.headD '?' ≠ 's' := by decide
  exact h2 _ hmem h1

theorem typeCellStr_not_NA {q : Question} (ht : q.type ∈ supportedTypes) :
    typeCellStr q ∉ pandasNAStrings := by
  unfold typeCellStr
  by_cases hsel : q.type = "select_one" ∨ q.type = "select_multiple"
  · rw [if_pos hsel]
    exact typeCell_select_not_NA q.type q.name hsel
  · rw [if_neg hsel]
    simp only [supportedTypes, List.mem_cons, List.not_mem_nil, or_false] at ht
    rcases ht with h | h | h | h | h | h | h <;> rw [h] <;> decide

theorem rowSkipped_export {q : Question} (hn : q.name ∉ pandasNAStrings)
    (hl : q.label ∉ pandasNAStrings) (ht : typeCellStr q ∉ pandasNAStrings) :
    rowSkipped (exportSurveyRow q) = false := by
  unfold rowSkipped
  rw [show cellOf (exportSurveyRow q) "type" = strCell (typeCellStr q) from rfl,
    show cellOf (exportSurveyRow q) "name" = strCell q.name from rfl,
    show cellOf (exportSurveyRow q) "label" = strCell q.label from rfl,
    strCell_of_ne ht, strCell_of_ne hn, strCell_of_ne hl]
  simp

theorem parseRequired_export (q : Question) :
    parseRequiredCell ["type", "name", "label", "required"] (exportSurveyRow q) = q.required := by
  unfold parseRequiredCell
  rw [if_pos (by decide)]
  rw [show cellOf (exportSurveyRow q) "required"
      = strCell (if q.required then "yes" else "") from rfl]
  cases hr : q.required
  · decide
  · decide

theorem nonselect_normalizeType {t : String} (h : isSelectType t = false) :
    normalizeType t = t := by
  unfold isSelectType at h
  rcases Bool.or_eq_false_iff.mp h with ⟨h1, h2⟩
  unfold normalizeType
  rw [if_neg (by simp [h1]), if_neg (by simp [h2])]

theorem isSelectType_of_nonselect {q : Question} (ht : q.type ∈ supportedTypes)
    (hsel : ¬ (q.type = "select_one" ∨ q.type = "select_multiple")) :
    isSelectType q.type = false := by
  simp only [supportedTypes, List.mem_cons, List.not_mem_nil, or_false] at ht
  rcases ht with h | h | h | h | h | h | h
  · rw [h]; decide
  · rw [h]; decide
  · rw [h]; decide
  · rw [h]; decide
  · exact absurd (Or.inl h) hsel
  · exact absurd (Or.inr h) hsel
  · rw [h]; decide

theorem qKey_questionOfRow_nonselect {q : Question} (csheet : Option Sheet) (qid : String)
    (hn : q.name ∉ pandasNAStrings) (hl : q.label ∉ pandasNAStrings)
    (htype : q.type ∈ supportedTypes)
    (hsel : ¬ (q.type = "select_one" ∨ q.type = "select_multiple")) :
    qKey (questionOfRow ["type", "name", "label", "required"] csheet qid (exportSurveyRow q))
      = (q.name, q.label, q.type, q.required, []) := by
  have hty := typeCellStr_not_NA htype
  have hcellt : cellOf (exportSurveyRow q) "type" = Cell.str (typeCellStr q) := by
    rw [show cellOf (exportSurveyRow q) "type" = strCell (typeCellStr q) from rfl,
      strCell_of_ne hty]
  have hcelln : cellOf (exportSurveyRow q) "name" = Cell.str q.name := by
    rw [show cellOf (exportSurveyRow q) "name" = strCell q.name from rfl, strCell_of_ne hn]
  have hcelll : cellOf (exportSurveyRow q) "label" = Cell.str q.label := by
    rw [show cellOf (exportSurveyRow q) "label" = strCell q.label from rfl, strCell_of_ne hl]
  have hreq := parseRequired_export q
  have htc : typeCellStr q = q.type := by
    unfold typeCellStr
    rw [if_neg hsel]
  have hst : isSelectType (typeCellStr q) = false := by
    rw [htc]
    exact isSelectType_of_nonselect htype hsel
  have hnorm : normalizeType (typeCellStr q) = q.type := by
    rw [htc]
    exact nonselect_normalizeType (isSelectType_of_nonselect htype hsel)
  unfold questionOfRow qKey
  simp only [hcellt, hcelln, hcelll, pyStr, hst, Bool.false_eq_true, if_false, hnorm, hreq]

theorem qKey_questionOfRow {q : Question} (csheet : Option Sheet) (qid : String)
    (hv : validQuestion q)
    (hlk : (q.type = "select_one" ∨ q.type = "select_multiple") →
      lookupChoices csheet q.name = q.choices) :
    qKey (questionOfRow ["type", "name", "label", "required"] csheet qid (exportSurveyRow q))
      = qKey q := by
  obtain ⟨⟨hn0, hl0, htype, hiff⟩, hn, hl, hch⟩ := hv
  have hty := typeCellStr_not_NA htype
  have hcellt : cellOf (exportSurveyRow q) "type" = Cell.str (typeCellStr q) := by
    rw [show cellOf (exportSurveyRow q) "type" = strCell (typeCellStr q) from rfl,
      strCell_of_ne hty]
  have hcelln : cellOf (exportSurveyRow q) "name" = Cell.str q.name := by
    rw [show cellOf (exportSurveyRow q) "name" = strCell q.name from rfl, strCell_of_ne hn]
  have hcelll : cellOf (exportSurveyRow q) "label" = Cell.str q.label := by
    rw [show cellOf (exportSurveyRow q) "label" = strCell q.label from rfl, strCell_of_ne hl]
  have hreq := parseRequired_export q
  by_cases hsel : q.type = "select_one" ∨ q.type = "select_multiple"
  · have htc : typeCellStr q = q.type ++ " " ++ q.name := by
      unfold typeCellStr
      rw [if_pos hsel]
    have hlook := hlk hsel
    rcases hsel with h1 | h1
    · have hst : isSelectType (typeCellStr q) = true := by
        rw [htc, h1]
        unfold isSelectType
        rw [startsWithStr_select_one]
        rfl
      have hnorm : normalizeType (typeCellStr q) = q.type := by
        rw [htc, h1]
        unfold normalizeType
        rw [if_pos (startsWithStr_select_one q.name)]
      have hln : listNameOf (typeCellStr q) q.name = q.name := by
        rw [htc, h1]
        exact listNameOf_select "select_one" q.name (by decide)
      unfold questionOfRow qKey
      simp only [hcellt, hcelln, hcelll, pyStr, hst, if_true, hln, hlook, hnorm, hreq]
    · have hst : isSelectType (typeCellStr q) = true := by
        rw [htc, h1]
        unfold isSelectType
        rw [startsWithStr_select_multiple]
        simp
      have hnorm : normalizeType (typeCellStr q) = q.type := by
        rw [htc, h1]
        unfold normalizeType
        rw [if_neg (by rw [startsWithStr_sm_not_so]; simp),
          if_pos (startsWithStr_select_multiple q.name)]
      have hln : listNameOf (typeCellStr q) q.name = q.name := by
        rw [htc, h1]
        exact listNameOf_select "select_multiple" q.name (by decide)
      unfold questionOfRow qKey
      simp only [hcellt, hcelln, hcelll, pyStr, hst, if_true, hln, hlook, hnorm, hreq]
  · have hc0 : q.choices = [] := by
      by_contra hne
      exact hsel (hiff.mpr hne)
    rw [qKey_questionOfRow_nonselect csheet qid hn hl htype hsel]
    unfold qKey
    rw [hc0]

theorem buildQuestions_export (ids : Nat → String) (csheet : Option Sheet) :
    ∀ (sub : List Question) (k : Nat),
      (∀ q ∈ sub, validQuestion q ∧
        ((q.type = "select_one" ∨ q.type = "select_multiple") →
          lookupChoices csheet q.name = q.choices)) →
      (buildQuestions ids ["type", "name", "label", "required"] csheet k
          (sub.map exportSurveyRow)).map qKey
        = sub.map qKey := by
  intro sub
  induction sub with
  | nil => intro k _; rfl
  | cons q rest ih =>
    intro k hall
    obtain ⟨hv, hlk⟩ := hall q (List.mem_cons_self q rest)
    have hrest := fun q' hq' => hall q' (List.mem_cons_of_mem q hq')
    simp only [List.map_cons, buildQuestions]
    rw [if_neg (by
      rw [rowSkipped_export hv.2.1 hv.2.2.1 (typeCellStr_not_NA hv.1.2.2.1)]
      simp)]
    simp only [List.map_cons]
    rw [qKey_questionOfRow csheet (ids k) hv hlk, ih (k + 1) hrest]


theorem export_xlsform_eq (p : Project) :
    export_xlsform p = ⟨[("survey",
        ⟨if (p.form.map exportSurveyRow).isEmpty then [] else ["type", "name", "label", "required"],
         p.form.map exportSurveyRow⟩)] ++
      (if (p.form.flatMap exportChoiceRows).isEmpty then []
       else [("choices", ⟨["list_name", "name", "label"], p.form.flatMap exportChoiceRows⟩)])⟩ :=
  rfl

/-- C1 (amended): for every project form in which each question has a non-blank
name and label, a supported type, choices non-empty exactly for select
questions, pairwise-distinct question names, and name, label and every choice
text outside the default pandas NA vocabulary (an NA-string cell reads back as
NaN, so its row would be skipped or its choice text replaced), exporting the
form and importing the result into a project with an empty form reproduces
every question's name, label, normalized type, required flag and ordered
choices list (and hence the question count). -/
theorem xlsform_roundtrip_amended (p p0 : Project) (ids : Nat → String)
    (hform : ∀ q ∈ p.form, validQuestion q)
    (hnd : (p.form.map (fun q => q.name)).Nodup)
    (h0 : p0.form = []) :
    ((import_xlsform (export_xlsform p) ids p0).project.form).map qKey = p.form.map qKey := by
  by_cases hF : p.form = []
  · have hemp : import_xlsform (export_xlsform p) ids p0
        = ⟨false, some "XLSForm must contain type column in survey sheet", p0⟩ := by
      rw [export_xlsform_eq, hF]
      rfl
    rw [hemp, hF, h0]
  · have hrows : (p.form.map exportSurveyRow).isEmpty = false := by
      cases hc : p.form with
      | nil => exact absurd hc hF
      | cons a l => rfl
    have hwb : export_xlsform p = ⟨[("survey",
        ⟨["type", "name", "label", "required"], p.form.map exportSurveyRow⟩)] ++
        (if (p.form.flatMap exportChoiceRows).isEmpty then []
         else [("choices", ⟨["list_name", "name", "label"],
                 p.form.flatMap exportChoiceRows⟩)])⟩ := by
      rw [export_xlsform_eq, hrows]
      rfl
    by_cases hcs : (p.form.flatMap exportChoiceRows).isEmpty
    · have hwb2 : export_xlsform p = ⟨[("survey",
          ⟨["type", "name", "label", "required"], p.form.map exportSurveyRow⟩)]⟩ := by
        rw [hwb, if_pos hcs]
        rfl
      have himp : import_xlsform (export_xlsform p) ids p0 = ⟨true, none,
          { p0 with form := p0.form ++
              (buildQuestions ids ["type", "name", "label", "required"] none 0
                (p.form.map exportSurveyRow)) }⟩ := by
        rw [hwb2]
        rfl
      rw [himp]
      show (p0.form ++
          (buildQuestions ids ["type", "name", "label", "required"] none 0
            (p.form.map exportSurveyRow))).map qKey = p.form.map qKey
      rw [h0, List.nil_append]
      apply buildQuestions_export
      intro q hq
      refine ⟨hform q hq, fun hsel => ?_⟩
      exfalso
      have hne : q.choices ≠ [] := (hform q hq).1.2.2.2.mp hsel
      have hq0 : exportChoiceRows q = [] :=
        (List.flatMap_eq_nil_iff.mp (List.isEmpty_iff.mp hcs)) q hq
      exact exportChoiceRows_ne_nil hne hq0
    · have hwb2 : export_xlsform p = ⟨[("survey",
          ⟨["type", "name", "label", "required"], p.form.map exportSurveyRow⟩),
          ("choices", ⟨["list_name", "name", "label"], p.form.flatMap exportChoiceRows⟩)]⟩ := by
        rw [hwb, if_neg hcs]
        rfl
      have himp : import_xlsform (export_xlsform p) ids p0 = ⟨true, none,
          { p0 with form := p0.form ++
              (buildQuestions ids ["type", "name", "label", "required"]
                (some ⟨["list_name", "name", "label"], p.form.flatMap exportChoiceRows⟩) 0
                (p.form.map exportSurveyRow)) }⟩ := by
        rw [hwb2]
        rfl
      rw [himp]
      show (p0.form ++
          (buildQuestions ids ["type", "name", "label", "required"]
            (some ⟨["list_name", "name", "label"], p.form.flatMap exportChoiceRows⟩) 0
            (p.form.map exportSurveyRow))).map qKey = p.form.map qKey
      rw [h0, List.nil_append]
      apply buildQuestions_export
      intro q hq
      refine ⟨hform q hq, fun hsel => ?_⟩
      have hv := hform q hq
      have hne : q.choices ≠ [] := hv.1.2.2.2.mp hsel
      exact lookupChoices_export hq hnd hv.2.1 hv.2.2.2 hne


theorem isEmpty_false_of_ne_nil {α : Type} {l : List α} (h : l ≠ []) : l.isEmpty = false := by
  cases l with
  | nil => exact absurd rfl h
  | cons a t => rfl

/-- C9 (amended): export emits choices rows for every question with a
non-empty choices list regardless of its type, while import reads choices only
for select-prefixed type cells; hence a non-select question carrying choices —
provided its name and label survive pandas NA filtering, so its survey row is
not skipped — re-imports with an empty choices list (name, label, type and
required flag preserved). -/
theorem nonselect_choices_dropped (p p0 : Project) (ids : Nat → String) (q : Question)
    (hp : p.form = [q]) (h0 : p0.form = [])
    (hn : q.name ∉ pandasNAStrings) (hl : q.label ∉ pandasNAStrings)
    (ht : q.type ∈ (["text", "integer", "decimal", "date", "note"] : List String))
    (hc : q.choices ≠ []) :
    (export_xlsform p).sheets.lookup "choices"
        = some ⟨["list_name", "name", "label"], exportChoiceRows q⟩ ∧
    exportChoiceRows q ≠ [] ∧
    ((import_xlsform (export_xlsform p) ids p0).project.form).map qKey
        = [(q.name, q.label, q.type, q.required, [])] := by
  have hsel : ¬ (q.type = "select_one" ∨ q.type = "select_multiple") := by
    simp only [List.mem_cons, List.not_mem_nil, or_false] at ht
    rcases ht with h | h | h | h | h <;> rw [h] <;> decide
  have htype : q.type ∈ supportedTypes := by
    simp only [List.mem_cons, List.not_mem_nil, or_false] at ht
    simp only [supportedTypes, List.mem_cons, List.not_mem_nil, or_false]
    tauto
  have hfm : p.form.flatMap exportChoiceRows = exportChoiceRows q := by
    rw [hp]
    simp
  have hne := exportChoiceRows_ne_nil hc
  have hcs : ¬ ((p.form.flatMap exportChoiceRows).isEmpty = true) := by
    rw [hfm, isEmpty_false_of_ne_nil hne]
    simp
  have hrows : (p.form.map exportSurveyRow).isEmpty = false := by
    rw [hp]
    rfl
  have hwb2 : export_xlsform p = ⟨[("survey",
      ⟨["type", "name", "label", "required"], p.form.map exportSurveyRow⟩),
      ("choices", ⟨["list_name", "name", "label"], p.form.flatMap exportChoiceRows⟩)]⟩ := by
    rw [export_xlsform_eq, hrows, if_neg hcs]
    rfl
  refine ⟨?_, hne, ?_⟩
  · rw [hwb2, hfm]
    rfl
  · have himp : import_xlsform (export_xlsform p) ids p0 = ⟨true, none,
        { p0 with form := p0.form ++
            (buildQuestions ids ["type", "name", "label", "required"]
              (some ⟨["list_name", "name", "label"], p.form.flatMap exportChoiceRows⟩) 0
              (p.form.map exportSurveyRow)) }⟩ := by
      rw [hwb2]
      rfl
    rw [himp]
    show (p0.form ++
        (buildQuestions ids ["type", "name", "label", "required"]
          (some ⟨["list_name", "name", "label"], p.form.flatMap exportChoiceRows⟩) 0
          (p.form.map exportSurveyRow))).map qKey
      = [(q.name, q.label, q.type, q.required, [])]
    rw [h0, List.nil_append, hfm, hp]
    simp only [List.map_cons, List.map_nil, buildQuestions]
    rw [if_neg (by
      rw [rowSkipped_export hn hl (typeCellStr_not_NA htype)]
      simp)]
    simp only [List.map_cons, List.map_nil]
    rw [qKey_questionOfRow_nonselect
      (some ⟨["list_name", "name", "label"], exportChoiceRows q⟩) (ids 0) hn hl htype hsel]

/-- C9 counterexample: the claim as stated fails when the label is the pandas
NA string "NA": the exported survey row reads back with a NaN label, import
skips it entirely, and the round trip yields no question at all instead of a
question with empty choices. -/
theorem nonselect_choices_counterexample :
    ceNAQ.name ≠ "" ∧ ceNAQ.label ≠ "" ∧
    ceNAQ.type ∈ (["text", "integer", "decimal", "date", "note"] : List String) ∧
    ceNAQ.choices ≠ [] ∧ ceNAProject.form = [ceNAQ] ∧ emptyProject.form = [] ∧
    ((import_xlsform (export_xlsform ceNAProject) idSeq emptyProject).project.form).map qKey
      ≠ [(ceNAQ.name, ceNAQ.label, ceNAQ.type, ceNAQ.required, [])] := by
  refine ⟨by decide, by decide, by decide, by decide, rfl, rfl, by decide⟩

/-- C9 witness: a text question with one choice keeps its fields but loses its
choices on the round trip. -/
theorem nonselect_choices_dropped_witness :
    (export_xlsform exTextChoicesProject).sheets.lookup "choices"
        = some ⟨["list_name", "name", "label"], exportChoiceRows exTextChoicesQ⟩ ∧
    exportChoiceRows exTextChoicesQ ≠ [] ∧
    ((import_xlsform (export_xlsform exTextChoicesProject) idSeq emptyProject).project.form).map
        qKey = [(exTextChoicesQ.name, exTextChoicesQ.label, exTextChoicesQ.type,
          exTextChoicesQ.required, [])] :=
  nonselect_choices_dropped exTextChoicesProject emptyProject idSeq exTextChoicesQ rfl rfl
    (by decide) (by decide) (by decide) (by decide)


/-- C1 witness: the round trip reproduces a two-question form (required text
question plus select_one with two choices). -/
theorem xlsform_roundtrip_amended_witness :
    ((import_xlsform (export_xlsform exProject) idSeq emptyProject).project.form).map qKey
      = exProject.form.map qKey :=
  xlsform_roundtrip_amended exProject emptyProject idSeq (by decide) (by decide) rfl

/-- C1 counterexample: a select_one question whose only choice text is the
empty string satisfies every hypothesis of the claim as stated, yet the round
trip changes its choices list from [""] to ["opt1"] (import falls back to the
generated option name when the label cell reads back blank). -/
theorem xlsform_roundtrip_counterexample :
    (∀ q ∈ ceBlankChoiceProject.form, validQuestionClaim q) ∧
    (ceBlankChoiceProject.form.map (fun q => q.name)).Nodup ∧
    emptyProject.form = [] ∧
    ((import_xlsform (export_xlsform ceBlankChoiceProject) idSeq emptyProject).project.form).map
        qKey ≠ ceBlankChoiceProject.form.map qKey := by
  refine ⟨by decide, by decide, rfl, by decide⟩

/-- C2 (amended): the name-uniqueness re-derivation happens only on the
auto-naming path: when the caller supplies no variable name, the generated
name avoids every existing question name, so the add preserves pairwise
distinctness of names. -/
theorem addQuestion_auto_name_nodup (p : Project) (qid q_label q_type : String) (req : Bool)
    (q_choices q_name : String)
    (hauto : pyTrim q_name = "") (hlabel : pyTrim q_label ≠ "")
    (hnd : (p.form.map (fun q => q.name)).Nodup) :
    ∃ p', addQuestion p qid q_label q_type req q_choices q_name = some p' ∧
      (p'.form.map (fun q => q.name)).Nodup := by
  unfold addQuestion
  rw [if_neg hlabel]
  refine ⟨_, rfl, ?_⟩
  have hname : (if pyTrim q_name = "" then autoName p.form q_label else pyTrim q_name)
      = autoName p.form q_label := by
    rw [hauto]
    exact if_pos rfl
  simp only [List.map_append, List.map_cons, List.map_nil, hname]
  rw [List.nodup_append]
  refine ⟨hnd, by simp, fun a ha hb => ?_⟩
  simp only [List.mem_singleton] at hb
  subst hb
  exact autoName_not_mem p.form q_label ha

/-- C2 witness: adding an unnamed question to a one-question form keeps the
names distinct. -/
theorem addQuestion_auto_name_nodup_witness :
    ∃ p', addQuestion ceDupProject "q_y" "First" "text" false "" "" = some p' ∧
      (p'.form.map (fun q => q.name)).Nodup :=
  addQuestion_auto_name_nodup ceDupProject "q_y" "First" "text" false "" ""
    (by decide) (by decide) (by decide)

/-- C2 counterexample: supplying the already-used name "dup" adds a second
question with the same name — the handler uses a caller-supplied name
verbatim, so the uniqueness invariant is not re-derived in that case. -/
theorem addQuestion_dup_counterexample :
    (addQuestion ceDupProject "q_x" "Second" "text" false "" "dup").map
        (fun p => p.form.map (fun q => q.name)) = some ["dup", "dup"] ∧
    ¬ (["dup", "dup"] : List String).Nodup := by
  refine ⟨by decide, by decide⟩

/-- C3: import is atomic on failure: whenever it fails it reports an error and
leaves the project untouched; a workbook without a survey sheet fails with the
missing-sheet message, and a survey sheet missing one of type/name/label fails
with the project unchanged. -/
theorem import_xlsform_atomic (wb : Workbook) (ids : Nat → String) (p : Project) :
    ((import_xlsform wb ids p).success = false →
      (import_xlsform wb ids p).project = p ∧ (import_xlsform wb ids p).error.isSome = true) ∧
    (wb.sheets.lookup "survey" = none →
      import_xlsform wb ids p = ⟨false, some "XLSForm must contain a survey sheet", p⟩) ∧
    (∀ sv, wb.sheets.lookup "survey" = some sv →
      ∀ col ∈ (["type", "name", "label"] : List String), sv.columns.contains col = false →
        (import_xlsform wb ids p).success = false ∧
        (import_xlsform wb ids p).error.isSome = true ∧
        (import_xlsform wb ids p).project = p) := by
  rcases hsv : wb.sheets.lookup "survey" with _ | sv
  · have heq : import_xlsform wb ids p
        = ⟨false, some "XLSForm must contain a survey sheet", p⟩ := by
      unfold import_xlsform
      rw [hsv]
    refine ⟨fun _ => ?_, fun _ => heq, fun sv2 hsv2 => absurd hsv2 (by simp)⟩
    rw [heq]
    exact ⟨rfl, rfl⟩
  · have hbase : import_xlsform wb ids p
        = (match (["type", "name", "label"] : List String).find?
              (fun c => ! sv.columns.contains c) with
           | some col =>
             ⟨false, some ("XLSForm must contain " ++ col ++ " column in survey sheet"), p⟩
           | none =>
             ⟨true, none, { p with form := p.form ++
                 (buildQuestions ids sv.columns (wb.sheets.lookup "choices") 0 sv.rows) }⟩) := by
      unfold import_xlsform
      rw [hsv]
    rcases hfind : (["type", "name", "label"] : List String).find?
        (fun c => ! sv.columns.contains c) with _ | col
    · have heq : import_xlsform wb ids p = ⟨true, none, { p with form := p.form ++
          (buildQuestions ids sv.columns (wb.sheets.lookup "choices") 0 sv.rows) }⟩ := by
        rw [hbase, hfind]
      refine ⟨fun hfail => ?_, fun habs => absurd habs (by simp),
        fun sv2 hsv2 col hcol hmiss => ?_⟩
      · rw [heq] at hfail
        simp at hfail
      · cases hsv2
        have hall := List.find?_eq_none.mp hfind col hcol
        rw [hmiss] at hall
        simp at hall
    · have heq : import_xlsform wb ids p
          = ⟨false, some ("XLSForm must contain " ++ col ++ " column in survey sheet"), p⟩ := by
        rw [hbase, hfind]
      refine ⟨fun _ => ?_, fun habs => absurd habs (by simp),
        fun sv2 hsv2 col2 hcol2 hmiss2 => ?_⟩
      · rw [heq]
        exact ⟨rfl, rfl⟩
      · rw [heq]
        exact ⟨rfl, rfl, rfl⟩

/-- C3 witness: a workbook with no sheets fails with the missing-survey
message and the project unchanged. -/
theorem import_xlsform_atomic_witness :
    import_xlsform noSurveyWorkbook idSeq emptyProject
      = ⟨false, some "XLSForm must contain a survey sheet", emptyProject⟩ :=
  (import_xlsform_atomic noSurveyWorkbook idSeq emptyProject).2.1 rfl

/-- C5: an imported question is required exactly when the required cell,
lowercased through its Python string form, is one of yes/true/1/required;
every other cell content — blank included — gives required = false. -/
theorem parseRequired_iff (c : Cell) :
    parseRequired c = true ↔
      pyLower (pyStr c) ∈ (["yes", "true", "1", "required"] : List String) := by
  cases c with
  | blank => decide
  | str s =>
    constructor
    · intro h
      have hred : parseRequired (Cell.str s)
          = (pyTruthy (Cell.str s) &&
            decide (pyLower (pyStr (Cell.str s)) ∈
              (["yes", "true", "1", "required"] : List String))) := rfl
      rw [hred, Bool.and_eq_true, decide_eq_true_eq] at h
      exact h.2
    · intro h
      have hs : s ≠ "" := by
        intro h0
        rw [h0] at h
        exact absurd h (by decide)
      have hred : parseRequired (Cell.str s)
          = (pyTruthy (Cell.str s) &&
            decide (pyLower (pyStr (Cell.str s)) ∈
              (["yes", "true", "1", "required"] : List String))) := rfl
      rw [hred, Bool.and_eq_true, decide_eq_true_eq]
      exact ⟨by simp [pyTruthy, hs], h⟩
  | bool b => cases b <;> decide
  | int n =>
    constructor
    · intro h
      have hred : parseRequired (Cell.int n)
          = (pyTruthy (Cell.int n) &&
            decide (pyLower (pyStr (Cell.int n)) ∈
              (["yes", "true", "1", "required"] : List String))) := rfl
      rw [hred, Bool.and_eq_true, decide_eq_true_eq] at h
      exact h.2
    · intro h
      have hn : n ≠ 0 := by
        intro h0
        rw [h0] at h
        exact absurd h (by decide)
      have hred : parseRequired (Cell.int n)
          = (pyTruthy (Cell.int n) &&
            decide (pyLower (pyStr (Cell.int n)) ∈
              (["yes", "true", "1", "required"] : List String))) := rfl
      rw [hred, Bool.and_eq_true, decide_eq_true_eq]
      exact ⟨by simp [pyTruthy, hn], h⟩

/-- C6 (amended): load_projects returns the empty mapping when the document is
absent or json-parsing raises the caught JSONDecodeError; content that is not
valid UTF-8 raises an uncaught UnicodeDecodeError, and the duplicate legacy
copy (no try/except) raises even on malformed JSON; a readable parsed document
is returned in full. -/
theorem load_projects_spec_amended :
    load_projects StoredDoc.absent = Except.ok [] ∧
    load_projects (StoredDoc.present ReadOutcome.jsonDecodeError) = Except.ok [] ∧
    load_projects (StoredDoc.present ReadOutcome.unicodeDecodeError)
      = Except.error PyExn.unicodeDecodeError ∧
    (∀ m, load_projects (StoredDoc.present (ReadOutcome.ok m)) = Except.ok m) ∧
    load_projects_legacy (StoredDoc.present ReadOutcome.jsonDecodeError)
      = Except.error PyExn.jsonDecodeError ∧
    (∀ m, load_projects_legacy (StoredDoc.present (ReadOutcome.ok m)) = Except.ok m) :=
  ⟨rfl, rfl, rfl, fun _ => rfl, rfl, fun _ => rfl⟩

/-- C6 counterexample: the claim "empty mapping on any malformed content, never
a fatal error" fails: app.py propagates UnicodeDecodeError on non-UTF-8
content, and the duplicate legacy copy propagates even JSONDecodeError. -/
theorem load_projects_counterexample :
    load_projects (StoredDoc.present ReadOutcome.unicodeDecodeError) ≠ Except.ok [] ∧
    load_projects_legacy (StoredDoc.present ReadOutcome.jsonDecodeError) ≠ Except.ok [] :=
  ⟨fun h => Except.noConfusion h, fun h => Except.noConfusion h⟩

/-- C8: deleting the question at 1-based position k (within bounds) removes
exactly that question: earlier questions keep their positions, later ones move
up by one, and the data list and project metadata are untouched. -/
theorem deleteQuestion_spec (p : Project) (k : Nat) (h1 : 1 ≤ k) (h2 : k ≤ p.form.length) :
    (deleteQuestion p k).form.length = p.form.length - 1 ∧
    (∀ i, i < k - 1 → (deleteQuestion p k).form[i]? = p.form[i]?) ∧
    (∀ i, k - 1 ≤ i → (deleteQuestion p k).form[i]? = p.form[i + 1]?) ∧
    (deleteQuestion p k).data = p.data ∧
    (deleteQuestion p k).id = p.id ∧
    (deleteQuestion p k).title = p.title ∧
    (deleteQuestion p k).owner = p.owner ∧
    (deleteQuestion p k).created_at = p.created_at := by
  refine ⟨?_, ?_, ?_, rfl, rfl, rfl, rfl, rfl⟩
  · show (p.form.eraseIdx (k - 1)).length = p.form.length - 1
    rw [List.length_eraseIdx_of_lt (by omega)]
  · intro i hi
    exact List.getElem?_eraseIdx_of_lt p.form (k - 1) i hi
  · intro i hi
    exact List.getElem?_eraseIdx_of_ge p.form (k - 1) i hi

/-- C8 witness: deleting question 2 of a 3-question form. -/
theorem deleteQuestion_spec_witness :
    (deleteQuestion exThreeProject 2).form.length = exThreeProject.form.length - 1 ∧
    (∀ i, i < 2 - 1 → (deleteQuestion exThreeProject 2).form[i]? = exThreeProject.form[i]?) ∧
    (∀ i, 2 - 1 ≤ i →
      (deleteQuestion exThreeProject 2).form[i]? = exThreeProject.form[i + 1]?) ∧
    (deleteQuestion exThreeProject 2).data = exThreeProject.data ∧
    (deleteQuestion exThreeProject 2).id = exThreeProject.id ∧
    (deleteQuestion exThreeProject 2).title = exThreeProject.title ∧
    (deleteQuestion exThreeProject 2).owner = exThreeProject.owner ∧
    (deleteQuestion exThreeProject 2).created_at = exThreeProject.created_at :=
  deleteQuestion_spec exThreeProject 2 (by decide) (by decide)

/-- C10: import never touches the data list or the project metadata; on
success its only mutation is appending the built questions after the existing
form, and on failure the form is unchanged. -/
theorem import_xlsform_frame (wb : Workbook) (ids : Nat → String) (p : Project) :
    (import_xlsform wb ids p).project.data = p.data ∧
    (import_xlsform wb ids p).project.id = p.id ∧
    (import_xlsform wb ids p).project.title = p.title ∧
    (import_xlsform wb ids p).project.owner = p.owner ∧
    (import_xlsform wb ids p).project.created_at = p.created_at ∧
    ((import_xlsform wb ids p).success = true →
      (import_xlsform wb ids p).project.form = p.form ++ importedQuestions wb ids) ∧
    ((import_xlsform wb ids p).success = false →
      (import_xlsform wb ids p).project.form = p.form) := by
  rcases hsv : wb.sheets.lookup "survey" with _ | sv
  · have heq : import_xlsform wb ids p
        = ⟨false, some "XLSForm must contain a survey sheet", p⟩ := by
      unfold import_xlsform
      rw [hsv]
    rw [heq]
    exact ⟨rfl, rfl, rfl, rfl, rfl, fun habs => by simp at habs, fun _ => rfl⟩
  · have hbase : import_xlsform wb ids p
        = (match (["type", "name", "label"] : List String).find?
              (fun c => ! sv.columns.contains c) with
           | some col =>
             ⟨false, some ("XLSForm must contain " ++ col ++ " column in survey sheet"), p⟩
           | none =>
             ⟨true, none, { p with form := p.form ++
                 (buildQuestions ids sv.columns (wb.sheets.lookup "choices") 0 sv.rows) }⟩) := by
      unfold import_xlsform
      rw [hsv]
    rcases hfind : (["type", "name", "label"] : List String).find?
        (fun c => ! sv.columns.contains c) with _ | col
    · have heq : import_xlsform wb ids p = ⟨true, none, { p with form := p.form ++
          (buildQuestions ids sv.columns (wb.sheets.lookup "choices") 0 sv.rows) }⟩ := by
        rw [hbase, hfind]
      have hiq : importedQuestions wb ids
          = buildQuestions ids sv.columns (wb.sheets.lookup "choices") 0 sv.rows := by
        unfold importedQuestions
        rw [hsv]
      rw [heq, hiq]
      exact ⟨rfl, rfl, rfl, rfl, rfl, fun _ => rfl, fun habs => by simp at habs⟩
    · have heq : import_xlsform wb ids p
          = ⟨false, some ("XLSForm must contain " ++ col ++ " column in survey sheet"), p⟩ := by
        rw [hbase, hfind]
      rw [heq]
      exact ⟨rfl, rfl, rfl, rfl, rfl, fun habs => by simp at habs, fun _ => rfl⟩

/-- C10 witness: a successful import appends exactly the built questions. -/
theorem import_xlsform_frame_witness :
    (import_xlsform exSurveyWorkbook idSeq exPetsProject).project.form
      = exPetsProject.form ++ importedQuestions exSurveyWorkbook idSeq :=
  (import_xlsform_frame exSurveyWorkbook idSeq exPetsProject).2.2.2.2.2.1 (by decide)


theorem submit_missing_isEmpty_iff (p : Project) (entry : List (String × Value)) :
    ((p.form.filter (fun q => q.required && isMissingOpt (entry.lookup q.name))).map
        (fun q => q.label)).isEmpty = true ↔
      ¬ ∃ q ∈ p.form, q.required = true ∧ isMissingOpt (entry.lookup q.name) = true := by
  simp only [List.isEmpty_iff, List.map_eq_nil_iff, List.filter_eq_nil_iff, Bool.and_eq_true]
  constructor
  · intro h hex
    obtain ⟨q, hq, h1, h2⟩ := hex
    exact absurd ⟨h1, h2⟩ (h q hq)
  · intro h q hq hc
    exact h ⟨q, hq, hc.1, hc.2⟩

/-- General behaviour of the submit handler: submission fails exactly when
some required question's entry value is absent, the empty string, the empty
list or the number zero; on failure the project is unchanged and every
offending label is reported; on success the record `_submission_time := now`
followed by the entries (timestamp values normalised to their string form,
plain date values left as they are) is appended to the data list. -/
theorem submitRecord_spec (p : Project) (entry : List (String × Value)) (now : String) :
    ((submitRecord p entry now).success = false ↔
      ∃ q ∈ p.form, q.required = true ∧ isMissingOpt (entry.lookup q.name) = true) ∧
    ((submitRecord p entry now).success = false →
      (submitRecord p entry now).project = p ∧
      ∀ q ∈ p.form, q.required = true → isMissingOpt (entry.lookup q.name) = true →
        q.label ∈ (submitRecord p entry now).missing) ∧
    ((submitRecord p entry now).success = true →
      (submitRecord p entry now).project.data
        = p.data ++ [("_submission_time", Value.str now) ::
            entry.map (fun kv => (kv.1, normalizeValue kv.2))] ∧
      (submitRecord p entry now).project.form = p.form ∧
      (submitRecord p entry now).missing = []) := by
  by_cases hm : ((p.form.filter (fun q => q.required && isMissingOpt (entry.lookup q.name))).map
      (fun q => q.label)).isEmpty = true
  · have heq : submitRecord p entry now = ⟨true, [],
        { p with data := p.data ++
            [("_submission_time", Value.str now) ::
              entry.map (fun kv => (kv.1, normalizeValue kv.2))] }⟩ := by
      simp only [submitRecord]
      rw [if_pos hm]
    rw [heq]
    refine ⟨⟨fun habs => by simp at habs,
      fun hex => absurd hex ((submit_missing_isEmpty_iff p entry).mp hm)⟩,
      fun habs => by simp at habs, fun _ => ⟨rfl, rfl, rfl⟩⟩
  · have heq : submitRecord p entry now = ⟨false,
        (p.form.filter (fun q => q.required && isMissingOpt (entry.lookup q.name))).map
          (fun q => q.label), p⟩ := by
      simp only [submitRecord]
      rw [if_neg hm]
    rw [heq]
    have hex : ∃ q ∈ p.form, q.required = true ∧ isMissingOpt (entry.lookup q.name) = true := by
      by_contra hne
      exact hm ((submit_missing_isEmpty_iff p entry).mpr hne)
    refine ⟨⟨fun _ => hex, fun _ => rfl⟩, fun _ => ⟨rfl, ?_⟩, fun habs => by simp at habs⟩
    intro q hq hr hmiss
    exact List.mem_map_of_mem _ (List.mem_filter.mpr ⟨hq, by rw [hr, hmiss]; rfl⟩)

/-- Concrete check of `submitRecord_spec`: an empty multi-select on a required
question fails, mutates nothing and reports the label Pets. -/
theorem submitRecord_spec_witness :
    (submitRecord exPetsProject [("pets", Value.list [])] "2024-01-02").success = false ∧
    (submitRecord exPetsProject [("pets", Value.list [])] "2024-01-02").project = exPetsProject ∧
    "Pets" ∈ (submitRecord exPetsProject [("pets", Value.list [])] "2024-01-02").missing := by
  have h := submitRecord_spec exPetsProject [("pets", Value.list [])] "2024-01-02"
  have hfail : (submitRecord exPetsProject [("pets", Value.list [])] "2024-01-02").success
      = false := h.1.mpr ⟨exPetsQ, by decide, rfl, by decide⟩
  have h2 := h.2.1 hfail
  exact ⟨hfail, h2.1, h2.2 exPetsQ (by decide) rfl (by decide)⟩


/-- C4 (code bug): the claim and the comment `normalize date values` at
app.py line 509 say date/timestamp values are stored in string form, but the
check at line 511, `isinstance(v, (pd.Timestamp, datetime))`, does not match
the `datetime.date` objects `st.date_input` returns, so submitting a date
answer appends the raw date value unconverted: evaluating the handler on a
one-date-question form shows the submission succeeds and the stored record
keeps `Value.date`, and `normalizeValue` does not turn a date into its string
form. -/
theorem submitRecord_date_not_normalized :
    (submitRecord exDateProject [("d", Value.date "2024-01-02")]
        "2024-01-02T00:00:00").success = true ∧
    (submitRecord exDateProject [("d", Value.date "2024-01-02")]
        "2024-01-02T00:00:00").project.data
      = [[("_submission_time", Value.str "2024-01-02T00:00:00"),
          ("d", Value.date "2024-01-02")]] ∧
    normalizeValue (Value.date "2024-01-02") ≠ Value.str "2024-01-02" := by
  refine ⟨by decide, by decide, by decide⟩

end SurveyNest
